import Mathlib

/-!
Shallow embedding of src/threaded_parser.py.

Network and filesystem effects are abstracted into an explicit Oracle:
page fetching, regular-expression matching and per-image download success
are oracle parameters, everything else is translated line by line from the
Python source.  Python exceptions are modelled with Except / an error
component; Python machine behaviour that the claims mention (list slices,
str.replace, pathlib.Path.name, queue.Queue FIFO order) is modelled
explicitly below, next to the function that uses it.
-/

/-- Line 14: HABR_MAIN = "https://habr.com". -/
def HABR_MAIN : String := "https://habr.com"

/-- Tags for the three compiled regular expressions of lines 16-23
(HABR_ARTICLE_LINKS_REGEXP, IMAGE_REGEXP, ARTICLE_TITLE_REGEXP).
Their matching behaviour is the oracle field findall. -/
inductive Regexp where
  | articleLinks
  | image
  | articleTitle
deriving DecidableEq

/-- Python exceptions the translated code can raise:
AttributeError from None.decode() (line 116 when load_content returned None),
the Exception raised at line 95 when no title is found, and the
URLError / HTTPError that urllib.request.urlretrieve raises at line 80. -/
inductive PyError where
  | attributeError
  | titleException (link : String)
  | urlError (img_link : String)
deriving DecidableEq

/-- External-world oracle.
fetch models urllib.request.urlopen(url, timeout=10).read().decode()
(lines 123-127; none exactly when HTTPError or URLError was raised, in which
case load_content returns None).  findall models re.findall(regexp, content)
(line 117).  download_ok tells whether
urllib.request.urlretrieve(img_link, out_path) (line 80) succeeds; when it is
false the call raises (modelled as PyError.urlError). -/
structure Oracle where
  fetch : String → Option String
  findall : Regexp → String → List String
  download_ok : String → String → Bool

/-- Lines 29-33: class Article.  name is always set by get_articles_info
(line 96) before an Article reaches any consumer, so it is a plain String. -/
structure Article where
  link : String
  images_links : List String
  name : String
deriving DecidableEq

/-- Lines 36-48: class ArticlesProvider.  queue.Queue filled from
articles_arr in order is a FIFO buffer, modelled as the list of its
elements, front first. -/
structure ArticlesProvider where
  articles : List Article
deriving DecidableEq

/-- Lines 42-45: get_article_to_handle returns None when the queue is empty,
otherwise removes and returns the front element.  The returned pair is
(result, state of the provider afterwards). -/
def ArticlesProvider.get_article_to_handle (p : ArticlesProvider) :
    Option Article × ArticlesProvider :=
  match p.articles with
  | [] => (none, p)
  | a :: rest => (some a, { articles := rest })

/-- Lines 47-48: is_finish. -/
def ArticlesProvider.is_finish (p : ArticlesProvider) : Bool :=
  p.articles.isEmpty

/-- Iterate get_article_to_handle n times, collecting the returned values
(takeN p n = (values returned by the n successive calls, final state)). -/
def takeN : ArticlesProvider → Nat → List (Option Article) × ArticlesProvider
  | p, 0 => ([], p)
  | p, k + 1 =>
    let step := p.get_article_to_handle
    let next := takeN step.2 k
    (step.1 :: next.1, next.2)

/-- Lines 195-200: write_log appends one "[info] " line to the serialized
log sink. -/
def write_log (log : List String) (message : String) : List String :=
  log ++ ["[info] " ++ message]

/-- Observable state of GracefulKiller (lines 51-60): the graceful_kill
threading.Event plus the log sink that exit_gracefully writes to. -/
structure KillerState where
  graceful_kill : Bool
  log : List String
deriving DecidableEq

/-- Lines 58-60: exit_gracefully sets the event and then unconditionally
writes one log line, every time it is invoked. -/
def exit_gracefully (s : KillerState) : KillerState :=
  { graceful_kill := true, log := write_log s.log "___Graceful kill___" }

/-- Python list slice found[0:n] (line 119): for n >= 0 the first n
elements, for n < 0 everything but the last |n| elements. -/
def pySlice0 (l : List String) (n : Int) : List String :=
  if 0 ≤ n then l.take n.toNat else l.take (l.length - n.natAbs)

/-- Lines 123-127: load_content returns None exactly when the fetch raised
HTTPError or URLError. -/
def load_content (o : Oracle) (url : String) : Option String :=
  o.fetch url

/-- Lines 115-120: get_items.  content = load_content(link).decode() raises
AttributeError when load_content returned None (None has no .decode);
otherwise found = re.findall(regexp, content) and, because of Python int
truthiness, the slice found[0:n] is returned when n is nonzero and the whole
list when n = 0. -/
def get_items (o : Oracle) (link : String) (regexp : Regexp) (n : Int := 0) :
    Except PyError (List String) :=
  match load_content o link with
  | none => .error .attributeError
  | some content =>
    let found := o.findall regexp content
    if n ≠ 0 then .ok (pySlice0 found n) else .ok found

/-- Lines 63-72: the while-loop body of get_articles_links.  The loop runs
while n > 0 and decreases n by 20 each pass, so n.toNat passes are always
enough fuel; the fuel-exhausted branch is unreachable for the initial fuel
chosen in get_articles_links.  Page number n // 20 + 1 uses Python floor
division, which agrees with Int division for the n > 0 values reached. -/
def get_articles_links_loop (o : Oracle) : Nat → Int → Except PyError (List String)
  | 0, _ => .ok []
  | fuel + 1, n =>
    if n > 0 then
      match get_items o (HABR_MAIN ++ "/ru/all/page" ++ toString (n / 20 + 1))
          .articleLinks (min n 20) with
      | .error e => .error e
      | .ok one_page_links =>
        match get_articles_links_loop o fuel (n - 20) with
        | .error e => .error e
        | .ok rest => .ok (one_page_links.map (fun art_link => HABR_MAIN ++ art_link) ++ rest)
    else .ok []

/-- Lines 63-72: get_articles_links. -/
def get_articles_links (o : Oracle) (n : Int) : Except PyError (List String) :=
  get_articles_links_loop o n.toNat n

/-- Lines 75-76: parse_images. -/
def parse_images (o : Oracle) (link : String) : Except PyError (List String) :=
  get_items o link .image

/-- Lines 90-99: get_articles_info.  For each link, the title candidates are
extracted; an empty candidate list raises Exception(f"title does not exists
in: {link}"), otherwise an Article with titles_candidates[0] as name and
parse_images(link) as images_links is appended. -/
def get_articles_info (o : Oracle) : List String → Except PyError (List Article)
  | [] => .ok []
  | link :: rest =>
    match get_items o link .articleTitle with
    | .error e => .error e
    | .ok [] => .error (.titleException link)
    | .ok (t :: _) =>
      match parse_images o link with
      | .error e => .error e
      | .ok images =>
        match get_articles_info o rest with
        | .error e => .error e
        | .ok arts => .ok ({ link := link, images_links := images, name := t } :: arts)

/-- Lines 79-80: download_image is urllib.request.urlretrieve, which either
succeeds or raises; the oracle decides which. -/
def download_image (o : Oracle) (img_link out_path : String) : Bool :=
  o.download_ok img_link out_path

/-- Lines 83-87 loop: for i in range(len(links)): download_image(links[i],
out_dir + f"/{i}.jpg").  The result is the ordered list of attempted
(img_link, out_path) pairs together with the exception, if any, that ended
the loop: urlretrieve has no surrounding try, so the first failure raises
and no later index is attempted.  The os.mkdir side effect of lines 84-85 has
no bearing on the claims and is not modelled. -/
def download_all_images_aux (o : Oracle) (out_dir : String) :
    List String → Nat → List (String × String) × Option PyError
  | [], _ => ([], none)
  | img_link :: rest, i =>
    let out_path := out_dir ++ "/" ++ toString i ++ ".jpg"
    if download_image o img_link out_path then
      let next := download_all_images_aux o out_dir rest (i + 1)
      ((img_link, out_path) :: next.1, next.2)
    else
      ([(img_link, out_path)], some (.urlError img_link))

/-- Lines 83-87: download_all_images. -/
def download_all_images (o : Oracle) (links : List String) (out_dir : String) :
    List (String × String) × Option PyError :=
  download_all_images_aux o out_dir links 0

/-- One pass of Python str.replace(pat, '') with bounded fuel: at the first
position where pat is a prefix, those characters are dropped and scanning
resumes after them (Python replaces left to right, without rescanning the
already-built output).  Each step consumes at least one character when pat
is nonempty, so fuel = length of the string is always enough; for pat = []
Python's s.replace('', '') returns s unchanged, which the fuel-exhausted /
no-match branches also do. -/
def replaceAllFuel (pat : List Char) : Nat → List Char → List Char
  | _, [] => []
  | 0, s => s
  | fuel + 1, c :: rest =>
    if pat ≠ [] ∧ pat.isPrefixOf (c :: rest) then
      replaceAllFuel pat fuel ((c :: rest).drop pat.length)
    else
      c :: replaceAllFuel pat fuel rest

/-- Python s.replace(pat, '') on Lean strings (String is a list of
characters in this Lean version). -/
def string_remove (s pat : String) : String :=
  String.mk (replaceAllFuel pat.data s.data.length s.data)

/-- Lines 25-26: WINDOWS_DIRECTORY_INVALID_SYMBOLS, in source order.  The
tenth entry is the six-character string "&nbsp;", the last is the single
non-breaking-space character. -/
def WINDOWS_DIRECTORY_INVALID_SYMBOLS : List String :=
  ["<", ">", ":", "\"", "\\", "/", "|", "?", "*", "&nbsp;", "\xa0"]

/-- Lines 142-144 (and identically lines 108-110): the sanitizer loop
  for s in WINDOWS_DIRECTORY_INVALID_SYMBOLS:
      directory_name = directory_name.replace(s, '') -/
def sanitize (directory_name : String) : String :=
  WINDOWS_DIRECTORY_INVALID_SYMBOLS.foldl (fun dn s => string_remove dn s) directory_name

/-- Split a character list on '/' (helper for pathName). -/
def splitSlash : List Char → List (List Char)
  | [] => [[]]
  | c :: rest =>
    match splitSlash rest with
    | [] => [[c]]
    | part :: parts =>
      if c = '/' then [] :: part :: parts else (c :: part) :: parts

/-- pathlib.Path(p).name as used at line 146: the final nonempty component
of the path (trailing slashes ignored, empty when there is none).  The
'.'/'..' special components never arise in the claims. -/
def pathName (p : String) : String :=
  String.mk (((splitSlash p.data).filter (fun part => !part.isEmpty)).getLastD [])

/-- What one worker run leaves behind: the ordered download attempts it
issued, the provider items it never consumed, and the exception, if any,
that escaped the loop (ending the thread). -/
structure WorkerOutcome where
  attempts : List (String × String)
  remaining : List Article
  error : Option PyError
deriving DecidableEq

/-- Lines 130-149: the worker loop of start_image_loader, with the shared
provider threaded through this worker's iterations and the killer event
read once per iteration (killer it = value of
killer.graceful_kill.is_set() at iteration it).  Per iteration: if the
event is set, stop; take an article, stop on None; skip it when
images_links is empty; otherwise build the destination directory
out_path.name + '/' + sanitized name and call download_all_images — whose
exception, if any, propagates out of the loop and terminates the thread
(there is no try/except in the worker).  Log lines are not modelled. -/
def start_image_loader_loop (o : Oracle) (killer : Nat → Bool) (out_path : String) :
    List Article → Nat → WorkerOutcome
  | arts, it =>
    if killer it then { attempts := [], remaining := arts, error := none }
    else
      match arts with
      | [] => { attempts := [], remaining := [], error := none }
      | article_info :: rest =>
        if article_info.images_links.isEmpty then
          start_image_loader_loop o killer out_path rest (it + 1)
        else
          match download_all_images o article_info.images_links
              (pathName out_path ++ "/" ++ sanitize article_info.name) with
          | (atts, none) =>
            let r := start_image_loader_loop o killer out_path rest (it + 1)
            { attempts := atts ++ r.attempts, remaining := r.remaining, error := r.error }
          | (atts, some e) =>
            { attempts := atts, remaining := rest, error := some e }

/-- Observable shape of one run_scraper call that reached the join loop:
the items the provider was constructed with, the identities of the worker
threads started, and the identities joined (in join order). -/
structure ScraperRun where
  queue : List Article
  started : List Nat
  joined : List Nat
deriving DecidableEq

/-- Lines 152-170: run_scraper.  get_articles_links and get_articles_info
run before anything else; an exception from either propagates and nothing
below them happens.  Then threads = min(threads, articles_count) and
range(threads) many workers are started (range of a negative int is empty,
hence toNat).  The poll loop (lines 166-167) only sleeps until
graceful_kill is set or the provider is exhausted and is exited through no
other path; whichever condition ends it, the code then joins every thread
in pool, which blocks until that thread has terminated.  joined is written
exactly as the final for-loop produces it. -/
def run_scraper (o : Oracle) (threads articles_count : Int) (out_dir : String) :
    Except PyError ScraperRun :=
  match get_articles_links o articles_count with
  | .error e => .error e
  | .ok articles_links =>
    match get_articles_info o articles_links with
    | .error e => .error e
    | .ok infos =>
      let pool := List.range (min threads articles_count).toNat
      .ok { queue := infos
            started := pool
            joined := pool.foldl (fun acc th => acc ++ [th]) [] }

/-! Concrete oracles and values used by witnesses and counterexamples. -/

/-- Oracle for a healthy site: every fetch succeeds, the listing page shows
three article links, every article has the same title and two images, and
every download succeeds. -/
def demoOracle : Oracle :=
  { fetch := fun _ => some "page"
    findall := fun r _ =>
      match r with
      | .articleLinks => ["/a1", "/a2", "/a3"]
      | .image => ["img1", "img2"]
      | .articleTitle => ["Title"]
    download_ok := fun _ _ => true }

/-- The run_scraper outcome for demoOracle with 10 threads requested and 5
articles requested (only 3 links exist on the page). -/
def demoRun : ScraperRun :=
  { queue :=
      [ { link := HABR_MAIN ++ "/a1", images_links := ["img1", "img2"], name := "Title" }
      , { link := HABR_MAIN ++ "/a2", images_links := ["img1", "img2"], name := "Title" }
      , { link := HABR_MAIN ++ "/a3", images_links := ["img1", "img2"], name := "Title" } ]
    started := List.range 5
    joined := List.range 5 }

/-- Oracle whose article pages have no title match. -/
def noTitleOracle : Oracle :=
  { fetch := fun _ => some "page"
    findall := fun r _ =>
      match r with
      | .articleLinks => ["/a1"]
      | .image => []
      | .articleTitle => []
    download_ok := fun _ _ => true }

/-- Oracle where every fetch raises (load_content returns None). -/
def noFetchOracle : Oracle :=
  { fetch := fun _ => none
    findall := fun _ _ => []
    download_ok := fun _ _ => true }

/-- Oracle whose only failing download is the image link "u0". -/
def failU0Oracle : Oracle :=
  { fetch := fun _ => some "page"
    findall := fun _ _ => []
    download_ok := fun img_link _ => img_link != "u0" }

/-- An article whose first image download fails under failU0Oracle. -/
def artU : Article :=
  { link := "L", images_links := ["u0", "u1"], name := "T" }

/-- Two distinct articles whose names sanitize to the same directory. -/
def artLeft : Article :=
  { link := "l1", images_links := ["u1"], name := "a<" }

/-- See artLeft. -/
def artRight : Article :=
  { link := "l2", images_links := ["u2"], name := "a>" }

/-- A single-image article for the C6 witness. -/
def artSingle : Article :=
  { link := "L", images_links := ["u"], name := "T" }

/-- GracefulKiller state before any signal arrived. -/
def killer0 : KillerState :=
  { graceful_kill := false, log := [] }

/-! Helper lemmas. -/

/-- Draining an empty provider only ever yields none. -/
theorem takeN_nil (k : Nat) :
    takeN ⟨[]⟩ k = (List.replicate k none, ⟨[]⟩) := by
  induction k with
  | zero => rfl
  | succ m ih =>
    simp [takeN, ArticlesProvider.get_article_to_handle, ih, List.replicate]

/-- Folding the join loop over the pool visits exactly the pool, in order. -/
theorem list_foldl_append (l acc : List Nat) :
    l.foldl (fun a th => a ++ [th]) acc = acc ++ l := by
  induction l generalizing acc with
  | nil => simp
  | cons a as ih => simp [List.foldl, ih]

/-- Inversion of a successful run_scraper call: the worker pool is
range (min threads articles_count).toNat and the join loop visited exactly
that pool. -/
theorem run_scraper_ok_fields (o : Oracle) (threads articles_count : Int)
    (out_dir : String) (r : ScraperRun)
    (h : run_scraper o threads articles_count out_dir = .ok r) :
    r.started = List.range (min threads articles_count).toNat ∧
    r.joined = List.range (min threads articles_count).toNat := by
  cases hl : get_articles_links o articles_count with
  | error e => simp [run_scraper, hl] at h
  | ok links =>
    cases hi : get_articles_info o links with
    | error e => simp [run_scraper, hl, hi] at h
    | ok infos =>
      simp only [run_scraper, hl, hi, Except.ok.injEq] at h
      subst h
      refine ⟨rfl, ?_⟩
      simpa using list_foldl_append (List.range (min threads articles_count).toNat) []

/-- If some link in the list has an empty title-candidate list, building the
article list raises. -/
theorem get_articles_info_error_of_no_title (o : Oracle) :
    ∀ (links : List String) (l : String), l ∈ links →
    get_items o l .articleTitle = .ok [] →
    ∃ e, get_articles_info o links = .error e := by
  intro links
  induction links with
  | nil => intro l hl; exact absurd hl (List.not_mem_nil l)
  | cons link rest ih =>
    intro l hl h3
    rcases List.mem_cons.mp hl with rfl | hmem
    · exact ⟨.titleException l, by simp [get_articles_info, h3]⟩
    · cases ht : get_items o link .articleTitle with
      | error e => exact ⟨e, by simp [get_articles_info, ht]⟩
      | ok ts =>
        cases ts with
        | nil => exact ⟨.titleException link, by simp [get_articles_info, ht]⟩
        | cons t ts' =>
          cases himg : parse_images o link with
          | error e => exact ⟨e, by simp [get_articles_info, ht, himg]⟩
          | ok imgs =>
            obtain ⟨e, he⟩ := ih l hmem h3
            exact ⟨e, by simp [get_articles_info, ht, himg, he]⟩

/-- str.replace with an empty replacement never introduces characters. -/
theorem mem_of_mem_replaceAllFuel (pat : List Char) (x : Char) :
    ∀ (fuel : Nat) (s : List Char), x ∈ replaceAllFuel pat fuel s → x ∈ s := by
  intro fuel
  induction fuel with
  | zero =>
    intro s h
    cases s with
    | nil => exact absurd h (List.not_mem_nil x)
    | cons a as => exact h
  | succ m ih =>
    intro s h
    cases s with
    | nil => exact absurd h (List.not_mem_nil x)
    | cons a as =>
      by_cases hc : pat ≠ [] ∧ pat.isPrefixOf (a :: as) = true
      · rw [replaceAllFuel, if_pos hc] at h
        exact List.drop_subset _ _ (ih _ h)
      · rw [replaceAllFuel, if_neg hc] at h
        rcases List.mem_cons.mp h with rfl | h'
        · exact List.mem_cons_self _ _
        · exact List.mem_cons_of_mem _ (ih _ h')

/-- Removing all occurrences of a single character, with enough fuel,
removes every occurrence of that character. -/
theorem not_mem_replaceAllFuel_self (c : Char) :
    ∀ (fuel : Nat) (s : List Char), s.length ≤ fuel →
    c ∉ replaceAllFuel [c] fuel s := by
  intro fuel
  induction fuel with
  | zero =>
    intro s hs
    cases s with
    | nil => simp [replaceAllFuel]
    | cons a as => simp at hs
  | succ m ih =>
    intro s hs
    cases s with
    | nil => simp [replaceAllFuel]
    | cons a as =>
      by_cases hac : c = a
      · subst hac
        have hcond : ([c] : List Char) ≠ [] ∧ ([c] : List Char).isPrefixOf (c :: as) = true := by
          simp [List.isPrefixOf]
        rw [replaceAllFuel, if_pos hcond]
        exact ih as (by simpa using Nat.le_of_succ_le_succ hs)
      · have hcond : ¬(([c] : List Char) ≠ [] ∧ ([c] : List Char).isPrefixOf (a :: as) = true) := by
          simp [List.isPrefixOf]
          intro h
          exact absurd h hac
        rw [replaceAllFuel, if_neg hcond]
        intro hmem
        rcases List.mem_cons.mp hmem with rfl | h'
        · exact hac rfl
        · exact ih as (by simpa using Nat.le_of_succ_le_succ hs) h'

/-- string_remove never introduces characters. -/
theorem not_mem_string_remove (c : Char) (s pat : String) (h : c ∉ s.data) :
    c ∉ (string_remove s pat).data :=
  fun hc => h (mem_of_mem_replaceAllFuel _ _ _ _ hc)

/-- string_remove with a single-character pattern removes that character. -/
theorem not_mem_string_remove_single (c : Char) (s pat : String)
    (hp : pat.data = [c]) : c ∉ (string_remove s pat).data := by
  show c ∉ replaceAllFuel pat.data s.data.length s.data
  rw [hp]
  exact not_mem_replaceAllFuel_self c _ _ (Nat.le_refl _)

/-- When every download succeeds, the attempt list enumerates all links with
their positional .jpg names. -/
theorem download_aux_all_ok (o : Oracle) (out_dir : String)
    (hok : ∀ a b, o.download_ok a b = true) :
    ∀ (links : List String) (start : Nat),
    download_all_images_aux o out_dir links start =
      ((List.enumFrom start links).map
        (fun p => (p.2, out_dir ++ "/" ++ toString p.1 ++ ".jpg")), none) := by
  intro links
  induction links with
  | nil => intro start; rfl
  | cons a as ih =>
    intro start
    simp [download_all_images_aux, download_image, hok, List.enumFrom, ih]

/-- When every earlier download succeeds and the download at position
pre.length fails, exactly the first pre.length + 1 positions are attempted
and the loop ends with the exception of the failing link. -/
theorem download_aux_first_fail (o : Oracle) (out_dir l : String)
    (post : List String) :
    ∀ (pre : List String) (start : Nat),
    (∀ j (hj : j < pre.length),
      o.download_ok (pre.get ⟨j, hj⟩)
        (out_dir ++ "/" ++ toString (start + j) ++ ".jpg") = true) →
    o.download_ok l (out_dir ++ "/" ++ toString (start + pre.length) ++ ".jpg") = false →
    (download_all_images_aux o out_dir (pre ++ l :: post) start).1.length = pre.length + 1 ∧
    (download_all_images_aux o out_dir (pre ++ l :: post) start).2 = some (.urlError l) := by
  intro pre
  induction pre with
  | nil =>
    intro start hpre hl
    simp only [List.length_nil, Nat.add_zero] at hl
    simp [download_all_images_aux, download_image, hl]
  | cons p pre' ih =>
    intro start hpre hl
    have h0 : o.download_ok p (out_dir ++ "/" ++ toString start ++ ".jpg") = true := by
      have := hpre 0 (by simp)
      simpa using this
    have hpre' : ∀ j (hj : j < pre'.length),
        o.download_ok (pre'.get ⟨j, hj⟩)
          (out_dir ++ "/" ++ toString (start + 1 + j) ++ ".jpg") = true := by
      intro j hj
      have := hpre (j + 1) (by simpa using Nat.succ_lt_succ hj)
      have harith : start + (j + 1) = start + 1 + j := by omega
      rw [harith] at this
      exact this
    have hl' : o.download_ok l
        (out_dir ++ "/" ++ toString (start + 1 + pre'.length) ++ ".jpg") = false := by
      have harith : start + (p :: pre').length = start + 1 + pre'.length := by
        simp; omega
      rw [harith] at hl
      exact hl
    have ihres := ih (start + 1) hpre' hl'
    simp only [List.cons_append, download_all_images_aux, download_image, h0, if_pos]
    constructor
    · simp [ihres.1]
    · simp [ihres.2]

/-- Left cancellation for string append. -/
theorem string_append_cancel_left (a b c : String) (h : a ++ b = a ++ c) :
    b = c := by
  obtain ⟨la⟩ := a
  obtain ⟨lb⟩ := b
  obtain ⟨lc⟩ := c
  have h2 : la ++ lb = la ++ lc := by
    have := congrArg String.data h
    simpa using this
  exact congrArg String.mk (List.append_cancel_left h2)

/-! Claim theorems. -/

/-- C1: successive calls to ArticlesProvider.get_article_to_handle on a
provider built from any initial item list return the items in FIFO order,
each exactly once (the first length-many results are exactly the list, as
some-values, in order), and every further call returns none, leaving the
provider empty. -/
theorem articles_provider_take_fifo (arts : List Article) (k : Nat) :
    takeN ⟨arts⟩ (arts.length + k) =
      (arts.map some ++ List.replicate k none, ⟨[]⟩) := by
  induction arts with
  | nil => simpa using takeN_nil k
  | cons a rest ih =>
    have hlen : (a :: rest).length + k = (rest.length + k) + 1 := by
      simp [Nat.succ_add]
    rw [hlen]
    simp [takeN, ArticlesProvider.get_article_to_handle, ih]

/-- C2: every run_scraper call that returns joined exactly the worker
threads it started, in order: the final join loop visits the whole pool,
and joining blocks until the thread has terminated, so the supervisor never
returns while a started worker is still running. -/
theorem run_scraper_joins_all_started (o : Oracle) (threads articles_count : Int)
    (out_dir : String) (r : ScraperRun)
    (h : run_scraper o threads articles_count out_dir = .ok r) :
    r.joined = r.started := by
  obtain ⟨h1, h2⟩ := run_scraper_ok_fields o threads articles_count out_dir r h
  rw [h1, h2]

/-- Witness for C2 at a concrete healthy oracle. -/
theorem run_scraper_joins_all_started_witness : demoRun.joined = demoRun.started :=
  run_scraper_joins_all_started demoOracle 10 5 "out" demoRun rfl

/-- C3 counterexample: with 5 articles requested but only 3 links found,
and 10 workers requested, run_scraper starts 5 workers for a queue of 3
items — not min(10, 3) = 3, and more workers than items. -/
theorem run_scraper_clamp_cex :
    run_scraper demoOracle 10 5 "out" = .ok demoRun ∧
    demoRun.started.length = 5 ∧
    demoRun.queue.length = 3 ∧
    demoRun.started.length ≠ min 10 demoRun.queue.length := by
  exact ⟨rfl, by decide, by decide, by decide⟩

/-- C3 amended: run_scraper clamps the worker count to the requested
article count, not to the size of the constructed queue: it starts exactly
(min threads articles_count).toNat workers.  This equals min(N, queue size)
exactly when as many items were found as requested. -/
theorem run_scraper_starts_min_requested (o : Oracle) (threads articles_count : Int)
    (out_dir : String) (r : ScraperRun)
    (h : run_scraper o threads articles_count out_dir = .ok r) :
    r.started.length = (min threads articles_count).toNat := by
  rw [(run_scraper_ok_fields o threads articles_count out_dir r h).1,
    List.length_range]

/-- Witness for the amended C3. -/
theorem run_scraper_starts_min_requested_witness :
    demoRun.started.length = (min (10 : Int) 5).toNat :=
  run_scraper_starts_min_requested demoOracle 10 5 "out" demoRun rfl

/-- C5: the claim says a failed fetch is treated as no items found, and
load_content's Optional return plus its except-clause show that intent; but
get_items calls .decode() on the None unconditionally, so it raises
AttributeError instead of returning an empty list.  This theorem evaluates
the code at the failing input. -/
theorem get_items_raises_on_fetch_failure (o : Oracle) (link : String)
    (regexp : Regexp) (n : Int) (h : o.fetch link = none) :
    get_items o link regexp n = .error .attributeError := by
  simp [get_items, load_content, h]

/-- Witness for C5 at a concrete always-failing oracle. -/
theorem get_items_raises_on_fetch_failure_witness :
    get_items noFetchOracle "https://habr.com/ru/all/page1" .articleLinks 20 =
      .error .attributeError :=
  get_items_raises_on_fetch_failure noFetchOracle _ _ _ rfl

/-- C7 counterexample: invoking exit_gracefully twice is observably
different from invoking it once — each invocation emits one further
"Graceful kill" log record, so two calls emit two records, not one. -/
theorem exit_gracefully_twice_cex :
    exit_gracefully (exit_gracefully killer0) ≠ exit_gracefully killer0 ∧
    (exit_gracefully (exit_gracefully killer0)).log =
      ["[info] ___Graceful kill___", "[info] ___Graceful kill___"] := by
  exact ⟨by decide, by decide⟩

/-- C7 amended: the flag itself is idempotent — after any positive number
of exit_gracefully calls it is set — but the log side effect is not: n + 1
calls emit exactly n + 1 records. -/
theorem exit_gracefully_iterated (s : KillerState) (n : Nat) :
    (exit_gracefully^[n + 1] s).graceful_kill = true ∧
    (exit_gracefully^[n + 1] s).log.length = s.log.length + (n + 1) := by
  induction n generalizing s with
  | zero => simp [Function.iterate_one, exit_gracefully, write_log]
  | succ m ih =>
    rw [Function.iterate_succ_apply]
    obtain ⟨h1, h2⟩ := ih (exit_gracefully s)
    refine ⟨h1, ?_⟩
    rw [h2]
    simp only [exit_gracefully, write_log, List.length_append, List.length_cons,
      List.length_nil]
    omega

/-- C8: if any fetched page has no resolvable title, run_scraper propagates
an exception raised while the article list is being built — in the model
the error branch is taken before the provider is constructed, before any
worker is started and before any download, exactly as in the source where
line 156 raises before lines 157-170 run. -/
theorem run_scraper_aborts_on_missing_title (o : Oracle)
    (threads articles_count : Int) (out_dir : String)
    (links : List String) (l : String)
    (h1 : get_articles_links o articles_count = .ok links)
    (h2 : l ∈ links)
    (h3 : get_items o l .articleTitle = .ok []) :
    ∃ e, run_scraper o threads articles_count out_dir = .error e := by
  obtain ⟨e, he⟩ := get_articles_info_error_of_no_title o links l h2 h3
  exact ⟨e, by simp [run_scraper, h1, he]⟩

/-- Witness for C8 at a concrete oracle whose pages have no title. -/
theorem run_scraper_aborts_on_missing_title_witness :
    ∃ e, run_scraper noTitleOracle 3 1 "out" = .error e :=
  run_scraper_aborts_on_missing_title noTitleOracle 3 1 "out"
    [HABR_MAIN ++ "/a1"] (HABR_MAIN ++ "/a1") rfl
    (List.mem_singleton.mpr rfl) rfl

/-- C9 counterexample: the sanitizer does not remove every occurrence of
every symbol in the invalid set: sanitizing the string with characters
ampersand, ampersand, n, b, s, p, semicolon, n, b, s, p, semicolon leaves
exactly the six-character symbol that is the tenth set entry, because
removing its inner occurrence splices a new occurrence together after the
replace pass for that symbol has finished. -/
theorem sanitize_cex :
    "&nbsp;" ∈ WINDOWS_DIRECTORY_INVALID_SYMBOLS ∧
    sanitize "&&nbsp;nbsp;" = "&nbsp;" ∧
    ("&nbsp;" : String).data <:+: (sanitize "&&nbsp;nbsp;").data := by
  have h2 : sanitize "&&nbsp;nbsp;" = "&nbsp;" := by decide
  refine ⟨by decide, h2, ?_⟩
  rw [h2]

/-- C9 amended: the sanitizer does remove every occurrence of each
single-character symbol of the invalid set (all of them except the
six-character ampersand-n-b-s-p-semicolon entry, whose occurrences can
survive). -/
theorem sanitize_removes_single_char_symbols (name : String) (c : Char)
    (hc : c ∈ ['<', '>', ':', '"', '\\', '/', '|', '?', '*', '\xa0']) :
    c ∉ (sanitize name).data := by
  have hs : sanitize name =
      string_remove (string_remove (string_remove (string_remove (string_remove
        (string_remove (string_remove (string_remove (string_remove (string_remove
          (string_remove name "<") ">") ":") "\"") "\\") "/") "|") "?") "*")
            "&nbsp;") "\xa0" := rfl
  rw [hs]
  simp only [List.mem_cons, List.not_mem_nil, or_false] at hc
  rcases hc with rfl | rfl | rfl | rfl | rfl | rfl | rfl | rfl | rfl | rfl <;>
    repeat (first
      | exact not_mem_string_remove_single _ _ _ rfl
      | apply not_mem_string_remove)

/-- Witness for the amended C9. -/
theorem sanitize_removes_single_char_symbols_witness :
    '<' ∈ ['<', '>', ':', '"', '\\', '/', '|', '?', '*', '\xa0'] ∧
    '<' ∉ (sanitize "a<b").data :=
  ⟨by decide, sanitize_removes_single_char_symbols "a<b" '<' (by decide)⟩

/-- C10: when the page content is available, get_items with a positive
limit n returns exactly the first n matches found, and with the default
limit 0 returns all matches — 0 means unlimited, not empty. -/
theorem get_items_limit_semantics (o : Oracle) (link : String) (regexp : Regexp)
    (n : Int) (content : String) (h : o.fetch link = some content) :
    (0 < n →
      get_items o link regexp n = .ok ((o.findall regexp content).take n.toNat)) ∧
    get_items o link regexp 0 = .ok (o.findall regexp content) := by
  constructor
  · intro hn
    have hne : n ≠ 0 := by omega
    simp [get_items, load_content, h, pySlice0, hne, Int.le_of_lt hn]
  · simp [get_items, load_content, h]

/-- Witness for C10. -/
theorem get_items_limit_semantics_witness :
    get_items demoOracle "u" .articleLinks 2 =
      .ok ((demoOracle.findall .articleLinks "page").take (2 : Int).toNat) ∧
    get_items demoOracle "u" .articleLinks 0 =
      .ok (demoOracle.findall .articleLinks "page") :=
  ⟨(get_items_limit_semantics demoOracle "u" .articleLinks 2 "page" rfl).1 (by decide),
   (get_items_limit_semantics demoOracle "u" .articleLinks 2 "page" rfl).2⟩

/-- C4 counterexample: when the download of the resource at position 0
fails, the resource at position 1 is never attempted, the exception of the
failing link ends the loop, and the same exception escapes the worker. -/
theorem download_failure_aborts_cex :
    (download_all_images failU0Oracle ["u0", "u1"] "d").1 = [("u0", "d/0.jpg")] ∧
    ("u1", "d/1.jpg") ∉ (download_all_images failU0Oracle ["u0", "u1"] "d").1 ∧
    (download_all_images failU0Oracle ["u0", "u1"] "d").2 = some (.urlError "u0") ∧
    (start_image_loader_loop failU0Oracle (fun _ => false) "d" [artU] 0).error =
      some (.urlError "u0") := by
  exact ⟨by decide, by decide, by decide, by decide⟩

/-- C4 amended: a failure at resource position i is not absorbed: exactly
the resources at positions 0..i are attempted (everything after position i
is skipped), download_all_images ends with the exception of the failing
link, and — since neither download_image nor the worker loop has a
try/except — that exception escapes start_image_loader, terminating the
worker and leaving every remaining queue item unprocessed by it. -/
theorem download_failure_aborts_rest (o : Oracle) (out_path : String)
    (article_info : Article) (rest : List Article)
    (pre post : List String) (l : String)
    (hlinks : article_info.images_links = pre ++ l :: post)
    (hpre : ∀ j (hj : j < pre.length),
      o.download_ok (pre.get ⟨j, hj⟩)
        (pathName out_path ++ "/" ++ sanitize article_info.name ++ "/" ++
          toString j ++ ".jpg") = true)
    (hl : o.download_ok l
      (pathName out_path ++ "/" ++ sanitize article_info.name ++ "/" ++
        toString pre.length ++ ".jpg") = false) :
    (download_all_images o article_info.images_links
      (pathName out_path ++ "/" ++ sanitize article_info.name)).1.length =
        pre.length + 1 ∧
    (download_all_images o article_info.images_links
      (pathName out_path ++ "/" ++ sanitize article_info.name)).2 =
        some (.urlError l) ∧
    (start_image_loader_loop o (fun _ => false) out_path (article_info :: rest) 0).remaining = rest ∧
    (start_image_loader_loop o (fun _ => false) out_path (article_info :: rest) 0).error =
      some (.urlError l) := by
  have hfail := download_aux_first_fail o
    (pathName out_path ++ "/" ++ sanitize article_info.name) l post pre 0
    (fun j hj => by simpa using hpre j hj) (by simpa using hl)
  have hdl1 : (download_all_images o article_info.images_links
      (pathName out_path ++ "/" ++ sanitize article_info.name)).1.length =
        pre.length + 1 := by
    rw [hlinks]
    exact hfail.1
  have hdl2 : (download_all_images o article_info.images_links
      (pathName out_path ++ "/" ++ sanitize article_info.name)).2 =
        some (.urlError l) := by
    rw [hlinks]
    exact hfail.2
  have hne : article_info.images_links.isEmpty = false := by
    rw [hlinks]
    cases pre <;> rfl
  have hw : start_image_loader_loop o (fun _ => false) out_path (article_info :: rest) 0 =
      { attempts := (download_all_images o article_info.images_links
          (pathName out_path ++ "/" ++ sanitize article_info.name)).1
        remaining := rest
        error := some (.urlError l) } := by
    rcases hdl : download_all_images o article_info.images_links
        (pathName out_path ++ "/" ++ sanitize article_info.name) with ⟨atts, err⟩
    have herr : err = some (.urlError l) := by
      have h' := hdl2
      rw [hdl] at h'
      exact h'
    subst herr
    rw [start_image_loader_loop]
    simp [hne, hdl]
  exact ⟨hdl1, hdl2, by rw [hw], by rw [hw]⟩

/-- Witness for the amended C4: a first-position failure in a two-resource
item terminates the worker with the urlretrieve exception. -/
theorem download_failure_aborts_rest_witness :
    (start_image_loader_loop failU0Oracle (fun _ => false) "d" [artU] 0).error =
      some (.urlError "u0") :=
  (download_failure_aborts_rest failU0Oracle "d" artU [] [] ["u1"] "u0" rfl
    (fun j hj => absurd hj (Nat.not_lt_zero j)) rfl).2.2.2

/-- C6 counterexample: with output directory d/e (as given at the entry
point) and the two distinct items named a-less-than and a-greater-than,
both items' single resources are attempted at the same destination
e/a/0.jpg — the path is built from the final component of the output
directory, not from the directory itself, and the two distinct items share
one destination directory. -/
theorem image_destination_cex :
    artLeft ≠ artRight ∧
    (start_image_loader_loop demoOracle (fun _ => false) "d/e" [artLeft, artRight] 0).attempts =
      [("u1", "e/a/0.jpg"), ("u2", "e/a/0.jpg")] ∧
    ("e/a/0.jpg" : String) ≠ "d/e/a/0.jpg" := by
  exact ⟨by decide, by decide, by decide⟩

/-- C6 amended: resource i of an item is attempted at the path
(final component of the output directory path)/(sanitized item name)/i.jpg
— pathlib .name keeps only the last component — and distinct items target
distinct destination directories exactly when their sanitized identifiers
differ (equality of sanitized names, as in the counterexample, makes the
directories collide). -/
theorem image_destination_paths (o : Oracle) (out_path : String)
    (article_info : Article) (hok : ∀ a b, o.download_ok a b = true) :
    (download_all_images o article_info.images_links
      (pathName out_path ++ "/" ++ sanitize article_info.name)).1 =
      (List.enumFrom 0 article_info.images_links).map
        (fun p => (p.2, pathName out_path ++ "/" ++ sanitize article_info.name ++
          "/" ++ toString p.1 ++ ".jpg")) ∧
    (∀ name1 name2 : String, sanitize name1 ≠ sanitize name2 →
      pathName out_path ++ "/" ++ sanitize name1 ≠
        pathName out_path ++ "/" ++ sanitize name2) ∧
    (article_info.images_links.isEmpty = false →
      (start_image_loader_loop o (fun _ => false) out_path [article_info] 0).attempts =
        (List.enumFrom 0 article_info.images_links).map
          (fun p => (p.2, pathName out_path ++ "/" ++ sanitize article_info.name ++
            "/" ++ toString p.1 ++ ".jpg"))) := by
  have hall : download_all_images o article_info.images_links
      (pathName out_path ++ "/" ++ sanitize article_info.name) =
      ((List.enumFrom 0 article_info.images_links).map
        (fun p => (p.2, pathName out_path ++ "/" ++ sanitize article_info.name ++
          "/" ++ toString p.1 ++ ".jpg")), none) :=
    download_aux_all_ok o (pathName out_path ++ "/" ++ sanitize article_info.name)
      hok article_info.images_links 0
  refine ⟨by rw [hall], ?_, ?_⟩
  · intro name1 name2 hne heq
    exact hne (string_append_cancel_left (pathName out_path ++ "/") _ _ heq)
  · intro hne
    have htail : start_image_loader_loop o (fun _ => false) out_path [] 1 =
        { attempts := [], remaining := [], error := none } := rfl
    rw [start_image_loader_loop]
    simp only [hne, hall, Bool.false_eq_true, if_false, htail, List.append_nil]

/-- Witness for the amended C6. -/
theorem image_destination_paths_witness :
    (download_all_images demoOracle artSingle.images_links
      (pathName "o" ++ "/" ++ sanitize artSingle.name)).1 =
      (List.enumFrom 0 artSingle.images_links).map
        (fun p => (p.2, pathName "o" ++ "/" ++ sanitize artSingle.name ++
          "/" ++ toString p.1 ++ ".jpg")) ∧
    pathName "o" ++ "/" ++ sanitize "a" ≠ pathName "o" ++ "/" ++ sanitize "b" :=
  ⟨(image_destination_paths demoOracle "o" artSingle (fun _ _ => rfl)).1,
   (image_destination_paths demoOracle "o" artSingle (fun _ _ => rfl)).2.1
     "a" "b" (by decide)⟩
